import Mathlib

/-!
Shallow embedding of the session-reconciliation and token-cost accounting
logic of `streamlit_chat_app.py` (the only source file of the repository).

Python integers are modelled by `Int` (arbitrary precision, no clamping in
the source).  Python float arithmetic on costs and rates is modelled by
exact rational arithmetic over `ℚ`; the verified statements are about the
arithmetic the formulas denote.  Python `None` becomes `Option.none`;
Python truthiness of an optional string (both `None` and the empty string
are falsy) is `truthyStr`.  Assignment of a mutable list is modelled as a
value snapshot at the assignment point; this agrees with the source on
every state the theorems below observe.
-/

namespace DashboardAI

/-- One chat message, role "user" or "assistant", as appended to
`st.session_state.messages`. -/
structure Message where
  role : String
  content : String
deriving Repr, DecidableEq

/-- The `session_info` record created on `is_new_session` responses
(`session_id`, `is_new`, `started_at`); the timestamp is opaque. -/
structure SessionInfo where
  session_id : String
  is_new : Bool
  started_at : Nat
deriving Repr, DecidableEq

/-- The `_session_backup` dictionary: secondary copies of `session_id`,
`messages` and `session_info`. -/
structure Backup where
  session_id : Option String
  messages : List Message
  session_info : Option SessionInfo
deriving Repr, DecidableEq

/-- Model of `st.session_state.token_stats`: token counts are Python ints
(`Int`), rates and costs Python floats, modelled by `ℚ`. -/
structure TokenStats where
  total_prompt_tokens : Int
  total_completion_tokens : Int
  total_tokens : Int
  query_count : Int
  cached_tokens : Int
  cache_hit_rate : ℚ
  total_cost : ℚ
  cache_miss_cost : ℚ
  cache_hit_cost : ℚ
deriving Repr, DecidableEq

/-- The session-relevant part of `st.session_state`. `last_processed_prompt`
is `none` when the attribute `_last_processed_prompt` is not yet set. -/
structure SessionState where
  session_id : Option String
  messages : List Message
  session_info : Option SessionInfo
  last_processed_prompt : Option String
  backup : Backup
  token_stats : TokenStats
deriving Repr, DecidableEq

/-- The `tokens` block of a response; each field is absent (`none`) or a
Python int. -/
structure UsageBlock where
  prompt : Option Int
  completion : Option Int
  total : Option Int
  cached_tokens : Option Int
deriving Repr, DecidableEq

/-- The JSON body of a 200 response, restricted to the keys the program
reads: `response`, `session_id`, `is_new_session`, `tokens`.  A field is
`none` when the key is absent. -/
structure ChatResponse where
  response_text : Option String
  session_id : Option String
  is_new_session : Option Bool
  tokens : Option UsageBlock
deriving Repr, DecidableEq

/-- Python truthiness of an optional string: `None` and `""` are falsy. -/
def truthyStr : Option String → Bool
  | none => false
  | some s => !(s = "")

/-- Pricing constant `CACHE_MISS_COST_PER_1M = 0.27`. -/
def CACHE_MISS_COST_PER_1M : ℚ := 27 / 100

/-- Pricing constant `CACHE_HIT_COST_PER_1M = 0.07`. -/
def CACHE_HIT_COST_PER_1M : ℚ := 7 / 100

/-- Defaulted prompt count, `tokens.get("prompt", 0)`. -/
def promptOf (tk : UsageBlock) : Int := tk.prompt.getD 0

/-- Defaulted cached count, `tokens.get("cached_tokens", 0)`. -/
def cachedOf (tk : UsageBlock) : Int := tk.cached_tokens.getD 0

/-- Per-query `cache_miss_tokens = prompt_tokens - cached_tokens`; the
source applies no clamping, so this can be negative. -/
def missTokensOf (tk : UsageBlock) : Int := promptOf tk - cachedOf tk

/-- Per-query `cache_hit_cost = (cached_tokens / 1_000_000) * CACHE_HIT_COST_PER_1M`. -/
def queryHitCost (tk : UsageBlock) : ℚ :=
  (cachedOf tk : ℚ) / 1000000 * CACHE_HIT_COST_PER_1M

/-- Per-query `cache_miss_cost = (cache_miss_tokens / 1_000_000) * CACHE_MISS_COST_PER_1M`. -/
def queryMissCost (tk : UsageBlock) : ℚ :=
  (missTokensOf tk : ℚ) / 1000000 * CACHE_MISS_COST_PER_1M

/-- Per-query `total_cost = cache_hit_cost + cache_miss_cost`. -/
def queryCost (tk : UsageBlock) : ℚ := queryHitCost tk + queryMissCost tk

/-- Displayed `savings = (cached_tokens / 1_000_000) * (CACHE_MISS_COST_PER_1M - CACHE_HIT_COST_PER_1M)`. -/
def querySavings (tk : UsageBlock) : ℚ :=
  (cachedOf tk : ℚ) / 1000000 * (CACHE_MISS_COST_PER_1M - CACHE_HIT_COST_PER_1M)

/-- The savings line is shown only under `if cached_tokens > 0`. -/
def savingsReported (tk : UsageBlock) : Bool := cachedOf tk > 0

/-- The token-stats update block guarded by `if "tokens" in response:`,
as one value: increment `query_count`, accumulate the four token totals,
recompute `cache_hit_rate` from the accumulated totals when the new
`total_prompt_tokens` is positive (otherwise keep the previous rate), and
accumulate the three cost totals by the per-query costs.  Each field
equals the final value the sequential dictionary updates of the source
leave in it. -/
def record (ts : TokenStats) (tk : UsageBlock) : TokenStats :=
  let pTot := ts.total_prompt_tokens + tk.prompt.getD 0
  let cTot := ts.cached_tokens + tk.cached_tokens.getD 0
  { query_count := ts.query_count + 1
    total_prompt_tokens := pTot
    total_completion_tokens := ts.total_completion_tokens + tk.completion.getD 0
    total_tokens := ts.total_tokens + tk.total.getD 0
    cached_tokens := cTot
    cache_hit_rate :=
      if pTot > 0 then (cTot : ℚ) / (pTot : ℚ) * 100 else ts.cache_hit_rate
    cache_hit_cost := ts.cache_hit_cost + queryHitCost tk
    cache_miss_cost := ts.cache_miss_cost + queryMissCost tk
    total_cost := ts.total_cost + queryCost tk }

/-- The fresh `token_stats` dictionary created on first run. -/
def initialTokenStats : TokenStats :=
  { total_prompt_tokens := 0, total_completion_tokens := 0, total_tokens := 0
    query_count := 0, cached_tokens := 0, cache_hit_rate := 0
    total_cost := 0, cache_miss_cost := 0, cache_hit_cost := 0 }

/-- The duplicate-prompt guard plus admission (the body of
`if prompt := st.chat_input(...)` up to the backup update): if the prompt
equals `_last_processed_prompt`, return with no state change; otherwise set
`_last_processed_prompt`, append the user message, and copy `messages` into
the backup.  Returns `(accepted, new state)`. -/
def admitInput (s : SessionState) (input : String) : Bool × SessionState :=
  if s.last_processed_prompt = some input then
    (false, s)
  else
    let msgs := s.messages ++ [Message.mk "user" input]
    (true,
      { s with
        last_processed_prompt := some input
        messages := msgs
        backup := { s.backup with messages := msgs } })

/-- The session-id update of lines 225-238: set `session_id` to the
response's id when it differs from the held one, then restore the held id
when `is_new_session` is false or absent and the held id is truthy. -/
def reconcileSessionId (old : Option String) (newId : String) (isNew : Bool) :
    Option String :=
  let sid := if old = some newId then old else some newId
  if !isNew && truthyStr old then old else sid

/-- The response handling of lines 218-253, without the token block:
append the assistant message (placeholder text when `response` is absent);
when the response carries a `session_id` key, reconcile the held id, write
the three backup fields, and, when `is_new_session` is true, create a fresh
`session_info` — after the backup write, as in the source.  `t` is the
current time. -/
def reconcile (s : SessionState) (r : ChatResponse) (t : Nat) : SessionState :=
  let ai := r.response_text.getD "No response available"
  let msgs := s.messages ++ [Message.mk "assistant" ai]
  match r.session_id with
  | none => { s with messages := msgs }
  | some newId =>
      let isNew := r.is_new_session.getD false
      let sid := reconcileSessionId s.session_id newId isNew
      let bk : Backup :=
        { session_id := sid, messages := msgs, session_info := s.session_info }
      let sinfo :=
        if isNew then some (SessionInfo.mk newId true t) else s.session_info
      { s with session_id := sid, messages := msgs, session_info := sinfo,
               backup := bk }

/-- The `Reset Session` button body: clear `session_id`, `session_info` and
`messages`; nothing else is touched. -/
def reset (s : SessionState) : SessionState :=
  { s with session_id := none, session_info := none, messages := [] }

/-- Outcome of `send_chat_request`: a decoded 200 body, a non-200 status,
or a `ConnectionError`. -/
inductive SendOutcome where
  | success (r : ChatResponse)
  | httpError (code : Nat) (body : String)
  | connectionFailure
deriving Repr, DecidableEq

/-- `send_chat_request` returns the decoded JSON on status 200 and `None`
on a non-200 status or a connection error. -/
def sendResult : SendOutcome → Option ChatResponse
  | SendOutcome.success r => some r
  | SendOutcome.httpError _ _ => none
  | SendOutcome.connectionFailure => none

/-- Python truthiness of the decoded response dictionary (`if response:`),
restricted to the four keys the program reads: the empty dictionary is
falsy. -/
def respTruthy (r : ChatResponse) : Bool :=
  r.response_text.isSome || r.session_id.isSome ||
    r.is_new_session.isSome || r.tokens.isSome

/-- Response handling including the token block (lines 218-303): reconcile,
then run `record` when the response carries a `tokens` key. -/
def handleResponse (s : SessionState) (r : ChatResponse) (t : Nat) :
    SessionState :=
  let s1 := reconcile s r t
  match r.tokens with
  | none => s1
  | some tk => { s1 with token_stats := record s1.token_stats tk }

/-- One full turn: admit the prompt (return unchanged when rejected), send
the request, and on a truthy decoded response handle it; on `None` (non-200
or connection failure) or a falsy body, only the error message is shown and
no further state changes. -/
def turn (s : SessionState) (input : String) (o : SendOutcome) (t : Nat) :
    SessionState :=
  if s.last_processed_prompt = some input then s
  else
    let s1 := (admitInput s input).2
    match sendResult o with
    | none => s1
    | some r => if respTruthy r then handleResponse s1 r t else s1

/-- Per-field reinitialization of `messages` (lines 125-132): keep the
present primary; otherwise restore from the backup when it is non-empty,
else start empty. -/
def initMessages (present : Option (List Message)) (bk : Backup) :
    List Message :=
  match present with
  | some m => m
  | none => if bk.messages.isEmpty then [] else bk.messages

/-- Per-field reinitialization of `session_id` (lines 134-141): keep the
present primary; otherwise restore from the backup when it is truthy, else
`None`. -/
def initSessionId (present : Option (Option String)) (bk : Backup) :
    Option String :=
  match present with
  | some v => v
  | none => if truthyStr bk.session_id then bk.session_id else none

/-- Per-field reinitialization of `session_info` (lines 143-150): keep the
present primary; otherwise restore from the backup when it is truthy (a
non-`None` info dictionary is always truthy), else `None`. -/
def initSessionInfo (present : Option (Option SessionInfo)) (bk : Backup) :
    Option SessionInfo :=
  match present with
  | some v => v
  | none => if bk.session_info.isSome then bk.session_info else none

/-! Field lemmas for `record`. -/

theorem record_total_prompt_tokens (ts : TokenStats) (tk : UsageBlock) :
    (record ts tk).total_prompt_tokens = ts.total_prompt_tokens + promptOf tk := rfl

theorem record_total_completion_tokens (ts : TokenStats) (tk : UsageBlock) :
    (record ts tk).total_completion_tokens =
      ts.total_completion_tokens + tk.completion.getD 0 := rfl

theorem record_total_tokens (ts : TokenStats) (tk : UsageBlock) :
    (record ts tk).total_tokens = ts.total_tokens + tk.total.getD 0 := rfl

theorem record_cached_tokens (ts : TokenStats) (tk : UsageBlock) :
    (record ts tk).cached_tokens = ts.cached_tokens + cachedOf tk := rfl

theorem record_query_count (ts : TokenStats) (tk : UsageBlock) :
    (record ts tk).query_count = ts.query_count + 1 := rfl

theorem record_total_cost (ts : TokenStats) (tk : UsageBlock) :
    (record ts tk).total_cost = ts.total_cost + queryCost tk := rfl

theorem record_cache_hit_cost (ts : TokenStats) (tk : UsageBlock) :
    (record ts tk).cache_hit_cost = ts.cache_hit_cost + queryHitCost tk := rfl

theorem record_cache_miss_cost (ts : TokenStats) (tk : UsageBlock) :
    (record ts tk).cache_miss_cost = ts.cache_miss_cost + queryMissCost tk := rfl

theorem record_cache_hit_rate (ts : TokenStats) (tk : UsageBlock) :
    (record ts tk).cache_hit_rate =
      if ts.total_prompt_tokens + promptOf tk > 0 then
        ((ts.cached_tokens + cachedOf tk : Int) : ℚ) /
          ((ts.total_prompt_tokens + promptOf tk : Int) : ℚ) * 100
      else ts.cache_hit_rate := rfl

/-! Step lemmas for `admitInput`. -/

theorem admitInput_rejected (s : SessionState) (x : String)
    (h : s.last_processed_prompt = some x) : admitInput s x = (false, s) := by
  simp [admitInput, h]

theorem admitInput_accepted_fst (s : SessionState) (x : String)
    (h : s.last_processed_prompt ≠ some x) : (admitInput s x).1 = true := by
  simp [admitInput, h]

theorem admitInput_accepted_last (s : SessionState) (x : String)
    (h : s.last_processed_prompt ≠ some x) :
    ((admitInput s x).2).last_processed_prompt = some x := by
  simp [admitInput, h]

/-! Concrete states and blocks used as inputs of witnesses and
counterexamples. -/

/-- An empty backup, the first-run value. -/
def emptyBackup : Backup := { session_id := none, messages := [], session_info := none }

/-- A fresh session state with no held id and no processed prompt. -/
def freshState : SessionState :=
  { session_id := none, messages := [], session_info := none
    last_processed_prompt := none, backup := emptyBackup
    token_stats := initialTokenStats }

/-- A state holding the empty string as its session id. -/
def heldEmptyIdState : SessionState := { freshState with session_id := some "" }

/-- A state holding session id S1. -/
def heldS1State : SessionState := { freshState with session_id := some "S1" }

/-- A state whose last processed prompt is the string q. -/
def lastPromptQState : SessionState :=
  { freshState with last_processed_prompt := some "q" }

/-- A response carrying session id S2 with `is_new_session` false. -/
def respS2NotNew : ChatResponse :=
  { response_text := some "hi", session_id := some "S2"
    is_new_session := some false, tokens := none }

/-- A response carrying session id S1 with `is_new_session` true. -/
def respS1New : ChatResponse :=
  { response_text := some "hi", session_id := some "S1"
    is_new_session := some true, tokens := none }

/-- A usage block with only cached tokens (prompt absent). -/
def tkCachedOnly : UsageBlock :=
  { prompt := none, completion := none, total := none
    cached_tokens := some 1000000 }

/-- A usage block whose cached count exceeds its prompt count. -/
def tkOverCached : UsageBlock :=
  { prompt := some 100, completion := none, total := none
    cached_tokens := some 200 }

/-- The usage block of the cost example: prompt one million, 400k cached. -/
def tkCostExample : UsageBlock :=
  { prompt := some 1000000, completion := none, total := none
    cached_tokens := some 400000 }

/-- The usage block of the hit-rate example: prompt 100, 50 cached. -/
def tkHalfCached : UsageBlock :=
  { prompt := some 100, completion := none, total := none
    cached_tokens := some 50 }

/-- A well-formed usage block with all fields present. -/
def tkRegular : UsageBlock :=
  { prompt := some 100, completion := some 10, total := some 110
    cached_tokens := some 50 }

/-- Claim C8: with unit costs 0.27 per million for misses and 0.07 per
million for hits, recording a usage block with one million prompt tokens of
which 400000 are cached yields hit cost 0.028, miss cost 0.162, total cost
0.19 and savings 0.08, and the savings are reported because the cached
count is positive.  Costs are exact rationals here. -/
theorem C8_cost_example :
    queryHitCost tkCostExample = 28 / 1000 ∧
    queryMissCost tkCostExample = 162 / 1000 ∧
    queryCost tkCostExample = 19 / 100 ∧
    querySavings tkCostExample = 8 / 100 ∧
    savingsReported tkCostExample = true ∧
    (record initialTokenStats tkCostExample).total_cost = 19 / 100 := by
  refine ⟨?_, ?_, ?_, ?_, by decide, ?_⟩ <;>
    norm_num [queryHitCost, queryMissCost, queryCost, querySavings,
      missTokensOf, promptOf, cachedOf, tkCostExample, record_total_cost,
      CACHE_HIT_COST_PER_1M, CACHE_MISS_COST_PER_1M, initialTokenStats]

/-- Claim C9: reset clears `session_id`, `session_info` and `messages` and
changes nothing else — the backup, the token stats and the
duplicate-suppression marker keep their values. -/
theorem C9_reset_frame (s : SessionState) :
    (reset s).session_id = none ∧
    (reset s).session_info = none ∧
    (reset s).messages = [] ∧
    (reset s).backup = s.backup ∧
    (reset s).token_stats = s.token_stats ∧
    (reset s).last_processed_prompt = s.last_processed_prompt :=
  ⟨rfl, rfl, rfl, rfl, rfl, rfl⟩

/-- Claim C10: reset does not clear the duplicate-suppression marker: when
the last processed prompt was x, the reset state still records x, and
admitting x right after the reset — with messages empty and the session id
null — is rejected with no state change. -/
theorem C10_reset_keeps_duplicate_guard (s : SessionState) (x : String)
    (h : s.last_processed_prompt = some x) :
    (reset s).last_processed_prompt = some x ∧
    (reset s).messages = [] ∧
    (reset s).session_id = none ∧
    admitInput (reset s) x = (false, reset s) := by
  refine ⟨h, rfl, rfl, ?_⟩
  simp only [admitInput, reset]
  simp [h]

/-- Witness for C10 at a concrete state whose last processed prompt is q. -/
theorem C10_witness :
    lastPromptQState.last_processed_prompt = some "q" ∧
    ((reset lastPromptQState).last_processed_prompt = some "q" ∧
      (reset lastPromptQState).messages = [] ∧
      (reset lastPromptQState).session_id = none ∧
      admitInput (reset lastPromptQState) "q" = (false, reset lastPromptQState)) :=
  ⟨rfl, C10_reset_keeps_duplicate_guard lastPromptQState "q" rfl⟩

/-- Claim C4: admitting an input equal to the last processed one is
rejected with no side effects (the state, hence the message list, is
unchanged); an input that differs from the immediately prior admitted one
is accepted, even if it occurred earlier — admit x, admit y, admit x
accepts all three when x and y differ. -/
theorem C4_duplicate_suppression (s : SessionState) (x y : String) :
    (s.last_processed_prompt = some x →
      admitInput s x = (false, s) ∧
      ((admitInput s x).2).messages.length = s.messages.length) ∧
    (s.last_processed_prompt ≠ some x → (admitInput s x).1 = true) ∧
    (s.last_processed_prompt ≠ some x → y ≠ x →
      (admitInput s x).1 = true ∧
      (admitInput ((admitInput s x).2) y).1 = true ∧
      (admitInput ((admitInput ((admitInput s x).2) y).2) x).1 = true) := by
  refine ⟨fun h => ?_, fun h => admitInput_accepted_fst s x h, fun h hxy => ?_⟩
  · exact ⟨admitInput_rejected s x h, by rw [admitInput_rejected s x h]⟩
  · have l1 := admitInput_accepted_last s x h
    have h2 : ((admitInput s x).2).last_processed_prompt ≠ some y := by
      rw [l1]
      intro hc
      exact hxy (Option.some.inj hc).symm
    have l2 := admitInput_accepted_last ((admitInput s x).2) y h2
    have h3 :
        ((admitInput ((admitInput s x).2) y).2).last_processed_prompt ≠
          some x := by
      rw [l2]
      intro hc
      exact hxy (Option.some.inj hc)
    exact ⟨admitInput_accepted_fst s x h,
      admitInput_accepted_fst ((admitInput s x).2) y h2,
      admitInput_accepted_fst ((admitInput ((admitInput s x).2) y).2) x h3⟩

/-- Witness for C4: a duplicate of q is rejected at a concrete state, and
the sequence admit a, admit b, admit a from a fresh state accepts all
three. -/
theorem C4_witness :
    (admitInput lastPromptQState "q" = (false, lastPromptQState) ∧
      ((admitInput lastPromptQState "q").2).messages.length =
        lastPromptQState.messages.length) ∧
    ((admitInput freshState "a").1 = true ∧
      (admitInput ((admitInput freshState "a").2) "b").1 = true ∧
      (admitInput ((admitInput ((admitInput freshState "a").2) "b").2) "a").1 =
        true) :=
  ⟨(C4_duplicate_suppression lastPromptQState "q" "b").1 rfl,
   (C4_duplicate_suppression freshState "a" "b").2.2 (by decide) (by decide)⟩

/-- Counterexample to claim C1 as stated: the empty string is a non-null
held session id that differs from the one in a non-new response, yet
reconcile adopts the response id instead of keeping the held one, because
the restore guard tests Python truthiness and the empty string is falsy. -/
theorem C1_counterexample :
    heldEmptyIdState.session_id = some "" ∧
    respS2NotNew.session_id = some "S2" ∧
    respS2NotNew.is_new_session = some false ∧
    heldEmptyIdState.session_id ≠ some "S2" ∧
    (reconcile heldEmptyIdState respS2NotNew 0).session_id = some "S2" :=
  ⟨rfl, rfl, rfl, by decide, by decide⟩

/-- Claim C1 amended: on a response carrying session id S, the held id
becomes S when the held id is null or empty (falsy) or when
`is_new_session` is true; when the held id is truthy (non-null and
non-empty), differs from S, and `is_new_session` is false or absent, the
held id keeps its prior value; a response carrying no session id leaves the
held id unchanged. -/
theorem C1_session_reconcile (s : SessionState) (r : ChatResponse) (t : Nat) :
    (r.session_id = none → (reconcile s r t).session_id = s.session_id) ∧
    (∀ S, r.session_id = some S →
      (truthyStr s.session_id = false ∨ r.is_new_session.getD false = true) →
      (reconcile s r t).session_id = some S) ∧
    (∀ S, r.session_id = some S → truthyStr s.session_id = true →
      s.session_id ≠ some S → r.is_new_session.getD false = false →
      (reconcile s r t).session_id = s.session_id) := by
  refine ⟨fun h => ?_, fun S hS hcond => ?_, fun S hS htr hne hnew => ?_⟩
  · simp [reconcile, h]
  · rcases hcond with hf | ht
    · simp only [reconcile, hS, reconcileSessionId]
      simp [hf]
    · simp only [reconcile, hS, reconcileSessionId]
      simp [ht]
  · simp only [reconcile, hS, reconcileSessionId]
    simp [htr, hnew]

/-- Witness for C1 amended: adoption from a null held id on a new-session
response, and stickiness of the held id S1 against a non-new response
carrying S2. -/
theorem C1_witness :
    (reconcile freshState respS1New 0).session_id = some "S1" ∧
    (reconcile heldS1State respS2NotNew 0).session_id = some "S1" :=
  ⟨(C1_session_reconcile freshState respS1New 0).2.1 "S1" rfl (Or.inl rfl),
   (C1_session_reconcile heldS1State respS2NotNew 0).2.2 "S2" rfl (by decide)
     (by decide) rfl⟩

/-- Counterexample to claim C3 as stated: on a new-session response the
backup is written before the fresh `session_info` is created, so at the end
of the reconcile the backup holds the stale (here null) info, not the
freshly created one. -/
theorem C3_counterexample :
    respS1New.session_id = some "S1" ∧
    respS1New.is_new_session = some true ∧
    (reconcile freshState respS1New 7).session_info =
      some (SessionInfo.mk "S1" true 7) ∧
    (reconcile freshState respS1New 7).backup.session_info = none ∧
    (reconcile freshState respS1New 7).backup.session_info ≠
      (reconcile freshState respS1New 7).session_info :=
  ⟨rfl, rfl, by decide, by decide, by decide⟩

/-- Claim C3 amended: at the end of every reconcile of a response carrying
a session id, the backup holds the post-mutation session id and message
list, and the session info from before the call; when `is_new_session` is
false or absent that equals the post-mutation session info, but on a
new-session response the freshly created session info is not yet in the
backup. -/
theorem C3_backup_snapshot (s : SessionState) (r : ChatResponse) (t : Nat)
    (hS : r.session_id.isSome) :
    (reconcile s r t).backup.session_id = (reconcile s r t).session_id ∧
    (reconcile s r t).backup.messages = (reconcile s r t).messages ∧
    (reconcile s r t).backup.session_info = s.session_info ∧
    (r.is_new_session.getD false = false →
      (reconcile s r t).backup.session_info = (reconcile s r t).session_info) := by
  obtain ⟨S, h⟩ := Option.isSome_iff_exists.mp hS
  refine ⟨?_, ?_, ?_, fun hn => ?_⟩
  · simp [reconcile, h]
  · simp [reconcile, h]
  · simp [reconcile, h]
  · simp [reconcile, h, hn]

/-- Witness for C3 amended at a concrete state and a non-new response. -/
theorem C3_witness :
    (reconcile heldS1State respS2NotNew 3).backup.session_id =
      (reconcile heldS1State respS2NotNew 3).session_id ∧
    (reconcile heldS1State respS2NotNew 3).backup.messages =
      (reconcile heldS1State respS2NotNew 3).messages ∧
    (reconcile heldS1State respS2NotNew 3).backup.session_info =
      heldS1State.session_info ∧
    (reconcile heldS1State respS2NotNew 3).backup.session_info =
      (reconcile heldS1State respS2NotNew 3).session_info :=
  ⟨(C3_backup_snapshot heldS1State respS2NotNew 3 (by decide)).1,
   (C3_backup_snapshot heldS1State respS2NotNew 3 (by decide)).2.1,
   (C3_backup_snapshot heldS1State respS2NotNew 3 (by decide)).2.2.1,
   (C3_backup_snapshot heldS1State respS2NotNew 3 (by decide)).2.2.2 rfl⟩

/-- Counterexample to claim C2 as stated: a usage block whose cached count
exceeds its (defaulted) prompt count gives a negative miss-token count —
the source computes a plain difference, not a clamped one — hence a
negative per-query miss cost, and the accumulated total cost decreases. -/
theorem C2_counterexample :
    missTokensOf tkCachedOnly = -1000000 ∧
    missTokensOf tkCachedOnly ≠
      max 0 (promptOf tkCachedOnly - cachedOf tkCachedOnly) ∧
    queryMissCost tkCachedOnly < 0 ∧
    (record initialTokenStats tkCachedOnly).total_cost <
      initialTokenStats.total_cost := by
  refine ⟨by decide, by decide, ?_, ?_⟩
  · norm_num [queryMissCost, missTokensOf, promptOf, cachedOf, tkCachedOnly,
      CACHE_MISS_COST_PER_1M]
  · rw [record_total_cost]
    norm_num [queryCost, queryHitCost, queryMissCost, missTokensOf, promptOf,
      cachedOf, tkCachedOnly, CACHE_MISS_COST_PER_1M, CACHE_HIT_COST_PER_1M,
      initialTokenStats]

/-- Claim C2 amended: absent usage fields default to 0, but the source does
not clamp negative values and computes the miss-token count as the plain
difference of prompt and cached counts; when a block has non-negative
fields and its cached count does not exceed its prompt count, the per-query
hit, miss and total costs are non-negative and one record call leaves every
accumulated total no smaller. -/
theorem C2_record_monotone (ts : TokenStats) (tk : UsageBlock)
    (hc : 0 ≤ tk.completion.getD 0) (ht : 0 ≤ tk.total.getD 0)
    (hp : 0 ≤ promptOf tk) (hcch : 0 ≤ cachedOf tk)
    (hle : cachedOf tk ≤ promptOf tk) :
    missTokensOf tk = promptOf tk - cachedOf tk ∧
    (tk.prompt = none → promptOf tk = 0) ∧
    (tk.cached_tokens = none → cachedOf tk = 0) ∧
    0 ≤ queryHitCost tk ∧ 0 ≤ queryMissCost tk ∧ 0 ≤ queryCost tk ∧
    ts.total_cost ≤ (record ts tk).total_cost ∧
    ts.cache_hit_cost ≤ (record ts tk).cache_hit_cost ∧
    ts.cache_miss_cost ≤ (record ts tk).cache_miss_cost ∧
    ts.total_prompt_tokens ≤ (record ts tk).total_prompt_tokens ∧
    ts.total_completion_tokens ≤ (record ts tk).total_completion_tokens ∧
    ts.total_tokens ≤ (record ts tk).total_tokens ∧
    ts.cached_tokens ≤ (record ts tk).cached_tokens := by
  have hqc : (0 : ℚ) ≤ (cachedOf tk : ℚ) := by exact_mod_cast hcch
  have hqm : (0 : ℚ) ≤ (missTokensOf tk : ℚ) := by
    have hmz : (0 : Int) ≤ missTokensOf tk := sub_nonneg.mpr hle
    exact_mod_cast hmz
  have hhit : 0 ≤ queryHitCost tk := by
    unfold queryHitCost CACHE_HIT_COST_PER_1M
    exact mul_nonneg (div_nonneg hqc (by norm_num)) (by norm_num)
  have hmiss : 0 ≤ queryMissCost tk := by
    unfold queryMissCost CACHE_MISS_COST_PER_1M
    exact mul_nonneg (div_nonneg hqm (by norm_num)) (by norm_num)
  have hcost : 0 ≤ queryCost tk := add_nonneg hhit hmiss
  refine ⟨rfl, fun h => by simp [promptOf, h], fun h => by simp [cachedOf, h],
    hhit, hmiss, hcost, ?_, ?_, ?_, ?_, ?_, ?_, ?_⟩
  · rw [record_total_cost]
    exact le_add_of_nonneg_right hcost
  · rw [record_cache_hit_cost]
    exact le_add_of_nonneg_right hhit
  · rw [record_cache_miss_cost]
    exact le_add_of_nonneg_right hmiss
  · rw [record_total_prompt_tokens]
    exact le_add_of_nonneg_right hp
  · rw [record_total_completion_tokens]
    exact le_add_of_nonneg_right hc
  · rw [record_total_tokens]
    exact le_add_of_nonneg_right ht
  · rw [record_cached_tokens]
    exact le_add_of_nonneg_right hcch

/-- Witness for C2 amended at a concrete well-formed block. -/
theorem C2_witness :
    0 ≤ queryCost tkRegular ∧
    initialTokenStats.total_cost ≤
      (record initialTokenStats tkRegular).total_cost :=
  ⟨(C2_record_monotone initialTokenStats tkRegular (by decide) (by decide)
      (by decide) (by decide) (by decide)).2.2.2.2.2.1,
   (C2_record_monotone initialTokenStats tkRegular (by decide) (by decide)
      (by decide) (by decide) (by decide)).2.2.2.2.2.2.1⟩

/-- Counterexample to claim C5 as stated: a block whose cached count
exceeds its prompt count drives the recomputed hit rate to 200, outside
the interval 0 to 100. -/
theorem C5_counterexample :
    tkOverCached.prompt = some 100 ∧
    tkOverCached.cached_tokens = some 200 ∧
    (record initialTokenStats tkOverCached).cache_hit_rate = 200 ∧
    ¬ (record initialTokenStats tkOverCached).cache_hit_rate ≤ 100 := by
  refine ⟨rfl, rfl, ?_, ?_⟩
  · rw [record_cache_hit_rate]
    norm_num [initialTokenStats, promptOf, cachedOf, tkOverCached]
  · rw [record_cache_hit_rate]
    norm_num [initialTokenStats, promptOf, cachedOf, tkOverCached]

/-- Claim C5 amended: on every record call the hit rate is recomputed as
accumulated cached tokens over accumulated prompt tokens times 100 when the
accumulated prompt total is positive, and otherwise keeps its previous
value; it stays in the interval 0 to 100 provided it started there, the
accumulated counts satisfy zero at most cached at most prompt, and the
incoming block satisfies the same bound — without that bound it can leave
the interval. -/
theorem C5_cache_hit_rate_bounds (ts : TokenStats) (tk : UsageBlock)
    (h1 : 0 ≤ ts.cached_tokens) (h2 : ts.cached_tokens ≤ ts.total_prompt_tokens)
    (h3 : 0 ≤ ts.cache_hit_rate) (h4 : ts.cache_hit_rate ≤ 100)
    (hc : 0 ≤ cachedOf tk) (hp : cachedOf tk ≤ promptOf tk) :
    (0 ≤ (record ts tk).cache_hit_rate ∧ (record ts tk).cache_hit_rate ≤ 100) ∧
    (0 < (record ts tk).total_prompt_tokens →
      (record ts tk).cache_hit_rate =
        ((record ts tk).cached_tokens : ℚ) /
          ((record ts tk).total_prompt_tokens : ℚ) * 100) ∧
    ((record ts tk).total_prompt_tokens ≤ 0 →
      (record ts tk).cache_hit_rate = ts.cache_hit_rate) ∧
    (0 ≤ (record ts tk).cached_tokens ∧
      (record ts tk).cached_tokens ≤ (record ts tk).total_prompt_tokens) := by
  have hC0 : (0 : Int) ≤ ts.cached_tokens + cachedOf tk := add_nonneg h1 hc
  have hCP : ts.cached_tokens + cachedOf tk ≤
      ts.total_prompt_tokens + promptOf tk := add_le_add h2 hp
  rw [record_cache_hit_rate, record_total_prompt_tokens, record_cached_tokens]
  by_cases hpos : 0 < ts.total_prompt_tokens + promptOf tk
  · have hCq : (0 : ℚ) ≤ ((ts.cached_tokens + cachedOf tk : Int) : ℚ) := by
      exact_mod_cast hC0
    have hPq : (0 : ℚ) < ((ts.total_prompt_tokens + promptOf tk : Int) : ℚ) := by
      exact_mod_cast hpos
    have hCPq : ((ts.cached_tokens + cachedOf tk : Int) : ℚ) ≤
        ((ts.total_prompt_tokens + promptOf tk : Int) : ℚ) := by
      exact_mod_cast hCP
    have hdiv : ((ts.cached_tokens + cachedOf tk : Int) : ℚ) /
        ((ts.total_prompt_tokens + promptOf tk : Int) : ℚ) ≤ 1 :=
      (div_le_one hPq).mpr hCPq
    rw [if_pos hpos]
    refine ⟨⟨mul_nonneg (div_nonneg hCq hPq.le) (by norm_num), ?_⟩,
      fun _ => rfl, fun habs => absurd hpos (not_lt.mpr habs), hC0, hCP⟩
    calc ((ts.cached_tokens + cachedOf tk : Int) : ℚ) /
          ((ts.total_prompt_tokens + promptOf tk : Int) : ℚ) * 100 ≤ 1 * 100 :=
        mul_le_mul_of_nonneg_right hdiv (by norm_num)
      _ = 100 := by norm_num
  · rw [if_neg hpos]
    exact ⟨⟨h3, h4⟩, fun habs => absurd habs hpos, fun _ => rfl, hC0, hCP⟩

/-- Witness for C5 amended at the first record of the half-cached block,
together with the concrete two-call example giving rate 50. -/
theorem C5_witness :
    (0 ≤ (record initialTokenStats tkHalfCached).cache_hit_rate ∧
      (record initialTokenStats tkHalfCached).cache_hit_rate ≤ 100) ∧
    (record (record initialTokenStats tkHalfCached) tkHalfCached).cache_hit_rate
      = 50 :=
  ⟨(C5_cache_hit_rate_bounds initialTokenStats tkHalfCached (by decide)
      (by decide) (by norm_num [initialTokenStats])
      (by norm_num [initialTokenStats]) (by decide) (by decide)).1,
   by
    rw [record_cache_hit_rate, record_total_prompt_tokens, record_cached_tokens]
    norm_num [initialTokenStats, promptOf, cachedOf, tkHalfCached]⟩

/-- Claim C6: when the request ends in a non-200 status or a connection
failure, the decoded response is absent, the turn is abandoned with the
token stats and the session fields unchanged and no assistant message
appended; the user message admitted before the request remains at the end
of the transcript. -/
theorem C6_failure_frame (s : SessionState) (input : String) (o : SendOutcome)
    (t : Nat) (hadm : s.last_processed_prompt ≠ some input)
    (hfail : (∃ c b, o = SendOutcome.httpError c b) ∨
      o = SendOutcome.connectionFailure) :
    (turn s input o t).token_stats = s.token_stats ∧
    (turn s input o t).messages = s.messages ++ [Message.mk "user" input] ∧
    (turn s input o t).session_id = s.session_id ∧
    (turn s input o t).session_info = s.session_info ∧
    (turn s input o t).last_processed_prompt = some input := by
  have hres : sendResult o = none := by
    rcases hfail with ⟨c, b, rfl⟩ | rfl <;> rfl
  simp [turn, hadm, hres, admitInput]

/-- Witness for C6: a connection failure on a fresh state. -/
theorem C6_witness :
    (turn freshState "a" SendOutcome.connectionFailure 0).token_stats =
      freshState.token_stats ∧
    (turn freshState "a" SendOutcome.connectionFailure 0).messages =
      freshState.messages ++ [Message.mk "user" "a"] ∧
    (turn freshState "a" SendOutcome.connectionFailure 0).session_id =
      freshState.session_id ∧
    (turn freshState "a" SendOutcome.connectionFailure 0).session_info =
      freshState.session_info ∧
    (turn freshState "a" SendOutcome.connectionFailure 0).last_processed_prompt
      = some "a" :=
  C6_failure_frame freshState "a" SendOutcome.connectionFailure 0 (by decide)
    (Or.inr rfl)

/-- Claim C7: when a primary field is absent at the start of an invocation,
it is restored from the backup when the corresponding backup field is
non-empty (truthy), and initialized to a fresh empty value otherwise. -/
theorem C7_backup_restore (bk : Backup) :
    (bk.messages ≠ [] → initMessages none bk = bk.messages) ∧
    (bk.messages = [] → initMessages none bk = []) ∧
    (truthyStr bk.session_id = true → initSessionId none bk = bk.session_id) ∧
    (truthyStr bk.session_id = false → initSessionId none bk = none) ∧
    (bk.session_info.isSome = true → initSessionInfo none bk = bk.session_info) ∧
    (bk.session_info = none → initSessionInfo none bk = none) := by
  refine ⟨fun h => ?_, fun h => ?_, fun h => ?_, fun h => ?_, fun h => ?_,
    fun h => ?_⟩
  · simp [initMessages, h]
  · simp [initMessages, h]
  · simp [initSessionId, h]
  · simp [initSessionId, h]
  · simp [initSessionInfo, h]
  · simp [initSessionInfo, h]

/-- A sample user message for the restore example. -/
def mUser : Message := { role := "user", content := "q1" }

/-- A sample assistant message for the restore example. -/
def mAssistant : Message := { role := "assistant", content := "a1" }

/-- The backup of the restore example: id S1, two messages, null info. -/
def backupS1 : Backup :=
  { session_id := some "S1", messages := [mUser, mAssistant]
    session_info := none }

/-- Witness for C7 at the backup of the restore example. -/
theorem C7_witness :
    initSessionId none backupS1 = some "S1" ∧
    initMessages none backupS1 = [mUser, mAssistant] ∧
    initSessionInfo none backupS1 = none :=
  ⟨(C7_backup_restore backupS1).2.2.1 (by decide),
   (C7_backup_restore backupS1).1 (by decide),
   (C7_backup_restore backupS1).2.2.2.2.2 rfl⟩

end DashboardAI
